import Mathlib

/-!
Verification development for the QuickBase MCP server's relationship
orchestrator, integrity validator, tool guard, env-flag parsing and
request-shape validation.

The orchestrator and validator (QuickBaseClient.createAdvancedRelationship,
createJunctionTable, validateRelationship) live in src/quickbase/client.ts,
which is not among the provided sources (only its tests are); those methods
are modelled from the specification (sections 4.1-4.3).  The tool guard
(src/utils/toolGuards.ts), env helpers (src/utils/env.ts), request handler
dispatch (src/index.ts) and the zod argument schemas with the payload shape
validator (src/tools/index.ts) are embedded from the source.
-/

namespace QBMCP

/-- One (parentFieldId, childFieldLabel) pair of the Relationship Builder's
`lookupSpecs` input (spec section 4.1). -/
structure LookupSpec where
  parentFieldId : Nat
  childFieldLabel : String
deriving Repr, DecidableEq

/-- One (label, kind) extra-field entry of the Junction Table Builder's
`extraFields` input (spec section 4.2). -/
structure ExtraFieldSpec where
  label : String
  fieldType : String
deriving Repr, DecidableEq

/-- The `relationshipKind` argument of the Relationship Builder; per the
spec it is used only to annotate metadata. -/
inductive RelationshipType where
  | oneToMany
  | manyToMany
deriving Repr, DecidableEq

/-- A single remote operation issued against the Remote Table Service
client, as observable from the orchestrator: the mutating creation calls
of sections 4.1-4.2 and the read calls of section 4.3. -/
inductive RemoteCall where
  | createTable (name : String)
  | createReferenceField (tableId : String) (label : String) (parentTableId : String)
  | createLookupFieldCall (tableId : String) (label : String) (parentTableId : String)
      (parentFieldId : Nat) (referenceFieldId : Nat)
  | createFieldCall (tableId : String) (label : String) (fieldType : String)
  | getTableInfo (tableId : String)
  | getTableFields (tableId : String)
  | queryRecords (tableId : String)
deriving Repr, DecidableEq

/-- Field-creation calls (reference, lookup, or plain field). -/
def RemoteCall.isFieldCreation : RemoteCall → Bool
  | .createReferenceField _ _ _ => true
  | .createLookupFieldCall _ _ _ _ _ => true
  | .createFieldCall _ _ _ => true
  | _ => false

/-- Calls that create, update or delete remote state; the remaining calls
(table info, field list, record queries) are reads. -/
def RemoteCall.isMutation : RemoteCall → Bool
  | .createTable _ => true
  | .createReferenceField _ _ _ => true
  | .createLookupFieldCall _ _ _ _ _ => true
  | .createFieldCall _ _ _ => true
  | _ => false

/-- Modelled from the spec: the Remote Table Service client collaborator
(section 2), whose implementation (src/quickbase/client.ts) is not among
the provided sources.  The service answers the n-th remote call of an
orchestration either with a service-assigned identifier or with a typed
failure; field creations yield integer identifiers, table creations yield
opaque string identifiers (section 3). -/
structure RemoteService where
  fieldIdAt : Nat → Except String Nat
  tableIdAt : Nat → Except String String

/-- Result of the Relationship Builder (spec section 4.1). -/
structure AdvancedRelationshipResult where
  referenceFieldId : Nat
  lookupFieldIds : List Nat
deriving Repr, DecidableEq

/-- Result of the Junction Table Builder (spec section 4.2). -/
structure JunctionTableResult where
  junctionTableId : String
  table1ReferenceFieldId : Nat
  table2ReferenceFieldId : Nat
  extraFieldIds : List Nat
deriving Repr, DecidableEq

/-- Modelled from the spec: step 2 of the Relationship Builder (section
4.1) as implemented by the missing QuickBaseClient.createAdvancedRelationship:
for each entry of `lookupSpecs`, in input order, create one lookup field on
the child table naming the parent table, the entry's parentFieldId and the
reference field identifier from step 1; `k` is the index of the next remote
call.  Returns the issued calls and either the ordered identifiers or the
first failure. -/
def runLookupCreations (svc : RemoteService) (parentTableId childTableId : String)
    (referenceFieldId : Nat) (specs : List LookupSpec) (k : Nat) :
    List RemoteCall × Except String (List Nat) :=
  match specs with
  | [] => ([], .ok [])
  | s :: rest =>
    let call := RemoteCall.createLookupFieldCall childTableId s.childFieldLabel
      parentTableId s.parentFieldId referenceFieldId
    match svc.fieldIdAt k with
    | .error e => ([call], .error e)
    | .ok fid =>
      let r := runLookupCreations svc parentTableId childTableId referenceFieldId rest (k + 1)
      (call :: r.1,
        match r.2 with
        | .error e => .error e
        | .ok ids => .ok (fid :: ids))

/-- Modelled from the spec: the Relationship Builder (section 4.1),
implemented by the missing QuickBaseClient.createAdvancedRelationship.
Creates exactly one reference field on the child table, then one lookup
field per spec in input order, and returns the reference field identifier
with the ordered lookup field identifiers; failures propagate with the
original reason and no compensation.  `relationshipType` annotates metadata
only and does not change the call sequence. -/
def createAdvancedRelationship (svc : RemoteService)
    (parentTableId childTableId referenceFieldLabel : String)
    (lookupFields : List LookupSpec := [])
    (relationshipType : RelationshipType := .oneToMany) :
    List RemoteCall × Except String AdvancedRelationshipResult :=
  let refCall := RemoteCall.createReferenceField childTableId referenceFieldLabel parentTableId
  match svc.fieldIdAt 0 with
  | .error e => ([refCall], .error e)
  | .ok refId =>
    let r := runLookupCreations svc parentTableId childTableId refId lookupFields 1
    (refCall :: r.1,
      match r.2 with
      | .error e => .error e
      | .ok ids => .ok ⟨refId, ids⟩)

/-- Modelled from the spec: step 4 of the Junction Table Builder (section
4.2): create each extra field on the junction table in input order. -/
def runExtraFieldCreations (svc : RemoteService) (tableId : String)
    (extras : List ExtraFieldSpec) (k : Nat) : List RemoteCall × Except String (List Nat) :=
  match extras with
  | [] => ([], .ok [])
  | f :: rest =>
    let call := RemoteCall.createFieldCall tableId f.label f.fieldType
    match svc.fieldIdAt k with
    | .error e => ([call], .error e)
    | .ok fid =>
      let r := runExtraFieldCreations svc tableId rest (k + 1)
      (call :: r.1,
        match r.2 with
        | .error e => .error e
        | .ok ids => .ok (fid :: ids))

/-- Modelled from the spec: the Junction Table Builder (section 4.2),
implemented by the missing QuickBaseClient.createJunctionTable.  Strictly
sequentially: create the table, a reference field toward table1Id labelled
table1FieldLabel, a reference field toward table2Id labelled
table2FieldLabel, then one field per extra entry in input order. -/
def createJunctionTable (svc : RemoteService)
    (junctionTableName table1Id table2Id table1FieldLabel table2FieldLabel : String)
    (additionalFields : List ExtraFieldSpec := []) :
    List RemoteCall × Except String JunctionTableResult :=
  let tblCall := RemoteCall.createTable junctionTableName
  match svc.tableIdAt 0 with
  | .error e => ([tblCall], .error e)
  | .ok jid =>
    let ref1Call := RemoteCall.createReferenceField jid table1FieldLabel table1Id
    match svc.fieldIdAt 1 with
    | .error e => ([tblCall, ref1Call], .error e)
    | .ok f1 =>
      let ref2Call := RemoteCall.createReferenceField jid table2FieldLabel table2Id
      match svc.fieldIdAt 2 with
      | .error e => ([tblCall, ref1Call, ref2Call], .error e)
      | .ok f2 =>
        let r := runExtraFieldCreations svc jid additionalFields 3
        (tblCall :: ref1Call :: ref2Call :: r.1,
          match r.2 with
          | .error e => .error e
          | .ok ids => .ok ⟨jid, f1, f2, ids⟩)

/-- A field of a table as seen by the Relationship Integrity Validator:
service-assigned integer identifier and kind (spec section 3). -/
structure FieldDesc where
  id : Nat
  fieldType : String
deriving Repr, DecidableEq

/-- A record of a table: its identifier and its field values, keyed by
field identifier (only the numeric values relevant to orphan detection are
modelled). -/
structure RecordDesc where
  id : Nat
  values : List (Nat × Nat)
deriving Repr, DecidableEq

/-- A table's schema and live data as fetched by the validator. -/
structure TableDesc where
  fields : List FieldDesc
  records : List RecordDesc
deriving Repr, DecidableEq

/-- The remote service's state seen by the read-only validator: existing
tables by identifier. -/
abbrev SchemaEnv := List (String × TableDesc)

/-- Result of the Relationship Integrity Validator (spec section 4.3). -/
structure ValidationResult where
  isValid : Bool
  issues : List String
  orphanedRecords : List Nat
deriving Repr, DecidableEq

/-- Modelled from the spec: the orphan scan of section 4.3 — the
identifiers of the child records whose foreign-key value does not
correspond to any record identifier in the parent table. -/
def orphanRecordIds (pt ct : TableDesc) (fk : Nat) : List Nat :=
  (ct.records.filter (fun r =>
    match r.values.lookup fk with
    | some v => !((pt.records.map RecordDesc.id).contains v)
    | none => false)).map RecordDesc.id

/-- Modelled from the spec: the Relationship Integrity Validator (section
4.3), implemented by the missing QuickBaseClient.validateRelationship.
Checks, short-circuiting per category: the parent table exists, the child
table exists, the foreign-key field exists on the child with kind
"reference", and no child record's foreign-key value points at a
non-existent parent record; isValid is true iff no issues were recorded.
Returns the issued remote calls together with the result. -/
def validateRelationship (env : SchemaEnv) (parentTableId childTableId : String)
    (foreignKeyFieldId : Nat) : List RemoteCall × ValidationResult :=
  match env.lookup parentTableId with
  | none =>
    ([RemoteCall.getTableInfo parentTableId],
      ⟨false, ["Parent table " ++ parentTableId ++ " not found"], []⟩)
  | some parentTbl =>
    match env.lookup childTableId with
    | none =>
      ([RemoteCall.getTableInfo parentTableId, RemoteCall.getTableInfo childTableId],
        ⟨false, ["Child table " ++ childTableId ++ " not found"], []⟩)
    | some childTbl =>
      let baseCalls := [RemoteCall.getTableInfo parentTableId,
        RemoteCall.getTableInfo childTableId, RemoteCall.getTableFields childTableId]
      match childTbl.fields.find? (fun f => f.id == foreignKeyFieldId) with
      | none =>
        (baseCalls,
          ⟨false, ["Foreign key field " ++ toString foreignKeyFieldId
            ++ " not found in child table"], []⟩)
      | some f =>
        if f.fieldType ≠ "reference" then
          (baseCalls,
            ⟨false, ["Field " ++ toString foreignKeyFieldId
              ++ " is not a reference field"], []⟩)
        else
          let scanCalls := baseCalls ++ [RemoteCall.queryRecords childTableId,
            RemoteCall.queryRecords parentTableId]
          let orphanIds := orphanRecordIds parentTbl childTbl foreignKeyFieldId
          if orphanIds.isEmpty then
            (scanCalls, ⟨true, [], []⟩)
          else
            (scanCalls,
              ⟨false, ["Found " ++ toString orphanIds.length
                ++ " orphaned child records"], orphanIds⟩)

/-- The spec-side condition of claim C2: the foreign-key field exists among
the child table's fields and is of kind "reference". -/
def fkFieldIsReference (ct : TableDesc) (fk : Nat) : Prop :=
  ∃ f ∈ ct.fields, f.id = fk ∧ f.fieldType = "reference"

/-- The spec-side condition of claim C2: no child record's foreign-key
value points at a non-existent parent record. -/
def noOrphans (pt ct : TableDesc) (fk : Nat) : Prop :=
  ∀ r ∈ ct.records, ∀ v, r.values.lookup fk = some v → v ∈ pt.records.map RecordDesc.id

/-- From src/utils/env.ts: the TRUE_VALUES set. -/
def trueValues : List String := ["1", "true", "yes", "y", "on"]

/-- From src/utils/env.ts: the FALSE_VALUES set. -/
def falseValues : List String := ["0", "false", "no", "n", "off"]

/-- The JavaScript String.prototype.trim() library call: strips leading
and trailing whitespace. -/
def jsTrim (s : String) : String :=
  String.mk (((s.data.dropWhile Char.isWhitespace).reverse.dropWhile
    Char.isWhitespace).reverse)

/-- The JavaScript String.prototype.toLowerCase() library call. -/
def jsToLower (s : String) : String :=
  String.mk (s.data.map Char.toLower)

/-- From src/utils/env.ts: the normalization `String(raw).trim().toLowerCase()`. -/
def envNormalize (s : String) : String :=
  jsToLower (jsTrim s)

/-- From src/utils/env.ts: envFlag(name, defaultValue).  The environment
variable's value is passed explicitly (`none` when the variable is unset);
the raw value is trimmed and lowercased before set membership is tested. -/
def envFlag (raw : Option String) (defaultValue : Bool := false) : Bool :=
  match raw with
  | none => defaultValue
  | some v =>
    let normalized := envNormalize v
    if normalized.length == 0 then defaultValue
    else if trueValues.contains normalized then true
    else if falseValues.contains normalized then false
    else defaultValue

mutual

/-- A JSON-like JavaScript value as received in a tool argument bundle:
null, undefined, string, number, boolean, array, object, or a value of any
other runtime type (recorded by its typeof name). -/
inductive Json where
  | null : Json
  | undef : Json
  | str (s : String) : Json
  | num (n : Int) : Json
  | bool (b : Bool) : Json
  | arr (items : JsonList) : Json
  | obj (entries : JsonObj) : Json
  | other (typeName : String) : Json

/-- A list of JSON values (array elements, in order). -/
inductive JsonList where
  | nil : JsonList
  | cons (hd : Json) (tl : JsonList) : JsonList

/-- The key-value entries of a JSON object, in enumeration order. -/
inductive JsonObj where
  | nil : JsonObj
  | cons (key : String) (val : Json) (tl : JsonObj) : JsonObj

end

/-- Number of elements of a JSON array. -/
def JsonList.length : JsonList → Nat
  | .nil => 0
  | .cons _ tl => 1 + tl.length

/-- Number of keys of a JSON object (Object.keys(obj).length). -/
def JsonObj.length : JsonObj → Nat
  | .nil => 0
  | .cons _ _ tl => 1 + tl.length

/-- First value stored under a key, if any. -/
def JsonObj.lookup : JsonObj → String → Option Json
  | .nil, _ => none
  | .cons k v tl, key => if k == key then some v else tl.lookup key

/-- Property lookup on a JSON value: objects yield their entry, every
other value yields nothing. -/
def Json.objLookup : Json → String → Option Json
  | .obj entries, key => entries.lookup key
  | _, _ => none

/-- From src/utils/toolGuards.ts and src/tools/index.ts: whether the
argument bundle carries the explicit confirmation flag
(`args.confirm === true`; on non-object bundles the property is absent). -/
def Json.hasConfirmTrue (args : Json) : Bool :=
  match args.objLookup "confirm" with
  | some (.bool true) => true
  | _ => false

/-- From src/utils/toolGuards.ts: the destructiveTools set. -/
def destructiveTools : List String :=
  ["quickbase_delete_table", "quickbase_delete_field", "quickbase_delete_record"]

/-- From src/utils/toolGuards.ts: the readOnlyAllowedTools set. -/
def readOnlyAllowedTools : List String :=
  ["quickbase_get_app_info", "quickbase_get_tables", "quickbase_test_connection",
   "quickbase_get_table_info", "quickbase_get_table_fields", "quickbase_query_records",
   "quickbase_get_record", "quickbase_search_records", "quickbase_get_relationships",
   "quickbase_get_reports", "quickbase_run_report"]

/-- From src/utils/toolGuards.ts: the confirmationRequiredTools set. -/
def confirmationRequiredTools : List String :=
  ["quickbase_create_table", "quickbase_create_field", "quickbase_update_field",
   "quickbase_create_record", "quickbase_update_record", "quickbase_bulk_create_records",
   "quickbase_create_relationship"]

/-- From src/utils/toolGuards.ts: assertToolAllowed.  Returns the thrown
McpError's message, or `none` when the call is allowed to proceed. -/
def assertToolAllowed (name : String) (args : Json)
    (readOnly allowDestructive : Bool) : Option String :=
  let confirmed := args.hasConfirmTrue
  if readOnly && !(readOnlyAllowedTools.contains name) then
    some ("Server is running in read-only mode (QB_READONLY=true). Tool \""
      ++ name ++ "\" is not allowed.")
  else if destructiveTools.contains name && !allowDestructive then
    some ("Destructive tool \"" ++ name
      ++ "\" is disabled. Set QB_ALLOW_DESTRUCTIVE=true to enable delete operations.")
  else if confirmationRequiredTools.contains name && !confirmed then
    some ("Tool \"" ++ name
      ++ "\" can modify data or schema and requires confirmation. Re-run with \x7b \"confirm\": true, ... \x7d.")
  else none

mutual

/-- From src/tools/index.ts: validateFieldPayload's recursive visit.
Checks, in source order: nesting depth, value kind, string length, array
length with recursion into items, per-object key count, the running total
key count, key lengths with recursion into values, and the unsupported-type
fallthrough.  Returns the issues raised and the updated total key count. -/
def visitValue (value : Json) (depth totalKeys : Nat) : List String × Nat :=
  if depth > 4 then (["Payload nesting too deep (max depth 4)."], totalKeys)
  else
    match value with
    | .null => ([], totalKeys)
    | .undef => ([], totalKeys)
    | .str s =>
      if s.length > 10000 then (["String value too long (max 10000 chars)."], totalKeys)
      else ([], totalKeys)
    | .num _ => ([], totalKeys)
    | .bool _ => ([], totalKeys)
    | .arr items =>
      if items.length > 1000 then (["Array too large (max 1000 items)."], totalKeys)
      else visitItems items depth totalKeys
    | .obj entries =>
      if entries.length > 250 then (["Object has too many keys (max 250)."], totalKeys)
      else
        let tk := totalKeys + entries.length
        if tk > 2000 then (["Payload has too many keys overall (max 2000)."], tk)
        else visitEntries entries depth tk
    | .other t => (["Unsupported value type in payload: " ++ t], totalKeys)

/-- Visit of the elements of an array, each one level deeper. -/
def visitItems (items : JsonList) (depth totalKeys : Nat) : List String × Nat :=
  match items with
  | .nil => ([], totalKeys)
  | .cons hd tl =>
    let r1 := visitValue hd (depth + 1) totalKeys
    let r2 := visitItems tl depth r1.2
    (r1.1 ++ r2.1, r2.2)

/-- Visit of the entries of an object: a too-long key aborts the object's
visit; otherwise the value is visited one level deeper. -/
def visitEntries (entries : JsonObj) (depth totalKeys : Nat) : List String × Nat :=
  match entries with
  | .nil => ([], totalKeys)
  | .cons k v tl =>
    if k.length > 64 then (["Object key too long (max 64 chars)."], totalKeys)
    else
      let r1 := visitValue v (depth + 1) totalKeys
      let r2 := visitEntries tl depth r1.2
      (r1.1 ++ r2.1, r2.2)

end

/-- From src/tools/index.ts: validateFieldPayload(payload, ctx) — the
issues added to the refinement context; an empty list means the payload is
accepted. -/
def validateFieldPayload (payload : Json) : List String :=
  (visitValue payload 0 0).1

mutual

/-- Spec-side limit of claim C8: no value sits at nesting depth greater
than 4 (`d` is the depth of the value itself). -/
def jsonDepthOk : Json → Nat → Bool
  | .arr items, d => decide (d ≤ 4) && jsonListDepthOk items (d + 1)
  | .obj entries, d => decide (d ≤ 4) && jsonObjDepthOk entries (d + 1)
  | _, d => decide (d ≤ 4)

/-- Depth limit over array elements. -/
def jsonListDepthOk : JsonList → Nat → Bool
  | .nil, _ => true
  | .cons hd tl, d => jsonDepthOk hd d && jsonListDepthOk tl d

/-- Depth limit over object entry values. -/
def jsonObjDepthOk : JsonObj → Nat → Bool
  | .nil, _ => true
  | .cons _ v tl, d => jsonDepthOk v d && jsonObjDepthOk tl d

end

mutual

/-- Spec-side limits of claim C8 that are local to each value: string
length at most 10000, array length at most 1000, at most 250 keys per
object, keys at most 64 characters, and only null/undefined, string,
number, boolean, array or object values. -/
def jsonLocalOk : Json → Bool
  | .null => true
  | .undef => true
  | .str s => decide (s.length ≤ 10000)
  | .num _ => true
  | .bool _ => true
  | .arr items => decide (items.length ≤ 1000) && jsonListLocalOk items
  | .obj entries => decide (entries.length ≤ 250) && jsonObjLocalOk entries
  | .other _ => false

/-- Local limits over array elements. -/
def jsonListLocalOk : JsonList → Bool
  | .nil => true
  | .cons hd tl => jsonLocalOk hd && jsonListLocalOk tl

/-- Local limits over object entries (key length and the value itself). -/
def jsonObjLocalOk : JsonObj → Bool
  | .nil => true
  | .cons k v tl => decide (k.length ≤ 64) && jsonLocalOk v && jsonObjLocalOk tl

end

mutual

/-- Spec-side count of claim C8: the total number of object keys anywhere
in the payload. -/
def jsonTotalKeys : Json → Nat
  | .arr items => jsonListTotalKeys items
  | .obj entries => entries.length + jsonObjTotalKeys entries
  | _ => 0

/-- Total keys over array elements. -/
def jsonListTotalKeys : JsonList → Nat
  | .nil => 0
  | .cons hd tl => jsonTotalKeys hd + jsonListTotalKeys tl

/-- Total keys over object entry values (the object's own keys are counted
by `jsonTotalKeys`). -/
def jsonObjTotalKeys : JsonObj → Nat
  | .nil => 0
  | .cons _ v tl => jsonTotalKeys v + jsonObjTotalKeys tl

end

/-- The fixed limits of claim C8, as a predicate on the whole payload. -/
def payloadWithinLimits (payload : Json) : Bool :=
  jsonDepthOk payload 0 && jsonLocalOk payload && decide (jsonTotalKeys payload ≤ 2000)

/-- The zod string-format primitives (`z.string().url()`,
`z.string().email()`) of the external validation library, abstracted as
predicates. -/
structure ZodPrims where
  isUrl : String → Bool
  isEmail : String → Bool

/-- Whether a value is a JavaScript object (the shape `z.object`/`z.record`
requires of its input). -/
def Json.isObj : Json → Bool
  | .obj _ => true
  | _ => false

/-- Conjunction of a predicate over array elements. -/
def JsonList.all (p : Json → Bool) : JsonList → Bool
  | .nil => true
  | .cons hd tl => p hd && JsonList.all p tl

/-- Conjunction of a predicate over object entry values. -/
def JsonObj.allVals (p : Json → Bool) : JsonObj → Bool
  | .nil => true
  | .cons _ v tl => p v && JsonObj.allVals p tl

/-- Required `z.string()`. -/
def reqStr : Option Json → Bool
  | some (.str _) => true
  | _ => false

/-- Required `z.string().min(lo).max(hi)`. -/
def reqStrLen (lo hi : Nat) : Option Json → Bool
  | some (.str s) => decide (lo ≤ s.length) && decide (s.length ≤ hi)
  | _ => false

/-- Required `z.number()`. -/
def reqNum : Option Json → Bool
  | some (.num _) => true
  | _ => false

/-- Required `z.number().int().min(lo).max(hi)`. -/
def reqNumRange (lo hi : Int) : Option Json → Bool
  | some (.num n) => decide (lo ≤ n) && decide (n ≤ hi)
  | _ => false

/-- Optional `z.string()` (absent or undefined is accepted). -/
def optStr : Option Json → Bool
  | none => true
  | some .undef => true
  | some (.str _) => true
  | _ => false

/-- Optional `z.string().max(hi)`. -/
def optStrMax (hi : Nat) : Option Json → Bool
  | none => true
  | some .undef => true
  | some (.str s) => decide (s.length ≤ hi)
  | _ => false

/-- Optional `z.string().min(lo).max(hi)`. -/
def optStrLen (lo hi : Nat) : Option Json → Bool
  | none => true
  | some .undef => true
  | some (.str s) => decide (lo ≤ s.length) && decide (s.length ≤ hi)
  | _ => false

/-- Optional `z.number()`. -/
def optNum : Option Json → Bool
  | none => true
  | some .undef => true
  | some (.num _) => true
  | _ => false

/-- Optional `z.number().int().min(lo).max(hi)`. -/
def optNumRange (lo hi : Int) : Option Json → Bool
  | none => true
  | some .undef => true
  | some (.num n) => decide (lo ≤ n) && decide (n ≤ hi)
  | _ => false

/-- `z.boolean()` that is optional or carries a default. -/
def optBool : Option Json → Bool
  | none => true
  | some .undef => true
  | some (.bool _) => true
  | _ => false

/-- Optional `z.array(z.number())`. -/
def optNumArr : Option Json → Bool
  | none => true
  | some .undef => true
  | some (.arr items) => items.all (fun v => match v with | .num _ => true | _ => false)
  | _ => false

/-- Optional `z.array(z.string())` with an upper bound on element length
and element count (`maxLen = 0` and `maxItems = 0` mean unbounded). -/
def optStrArr (maxLen maxItems : Nat) : Option Json → Bool
  | none => true
  | some .undef => true
  | some (.arr items) =>
    (maxItems == 0 || decide (items.length ≤ maxItems)) &&
      items.all (fun v => match v with
        | .str s => maxLen == 0 || decide (s.length ≤ maxLen)
        | _ => false)
  | _ => false

/-- Required enum of string literals. -/
def reqEnum (vals : List String) : Option Json → Bool
  | some (.str s) => vals.contains s
  | _ => false

/-- Enum of string literals that is optional or carries a default. -/
def optEnum (vals : List String) : Option Json → Bool
  | none => true
  | some .undef => true
  | some (.str s) => vals.contains s
  | _ => false

/-- Required `z.record(z.any()).superRefine(validateFieldPayload)`: the
value must be an object and the payload validator must raise no issue. -/
def recordPayloadOk : Option Json → Bool
  | some (.obj entries) => (validateFieldPayload (.obj entries)).isEmpty
  | _ => false

/-- Required `z.record(z.any())` without refinement. -/
def reqRecordAny : Option Json → Bool
  | some (.obj _) => true
  | _ => false

/-- Optional `z.record(z.string())`. -/
def optStrRecord : Option Json → Bool
  | none => true
  | some .undef => true
  | some (.obj entries) =>
    entries.allVals (fun v => match v with | .str _ => true | _ => false)
  | _ => false

/-- Required webhookEvents string matching the source regex (one or more
of the characters a, d, m). -/
def reqEvents : Option Json → Bool
  | some (.str s) =>
    decide (0 < s.length) && s.toList.all (fun c => c == 'a' || c == 'd' || c == 'm')
  | _ => false

/-- The fieldType enum of CreateFieldSchema (src/tools/index.ts). -/
def fieldTypeNames : List String :=
  ["text", "text_choice", "text_multiline", "richtext", "numeric",
   "currency", "percent", "date", "datetime", "checkbox", "email",
   "phone", "url", "address", "file", "lookup", "formula", "reference"]

/-- From src/tools/index.ts: TableIdSchema. -/
def TableIdSchemaCheck (a : Json) : Bool :=
  a.isObj && reqStrLen 3 64 (a.objLookup "tableId")

/-- From src/tools/index.ts: RecordIdSchema. -/
def RecordIdSchemaCheck (a : Json) : Bool :=
  a.isObj && reqStrLen 3 64 (a.objLookup "tableId") && reqNum (a.objLookup "recordId")

/-- From src/tools/index.ts: CreateTableSchema. -/
def CreateTableSchemaCheck (a : Json) : Bool :=
  a.isObj && a.hasConfirmTrue && reqStrLen 1 128 (a.objLookup "name") &&
    optStrMax 1024 (a.objLookup "description")

/-- From src/tools/index.ts: CreateFieldSchema. -/
def CreateFieldSchemaCheck (a : Json) : Bool :=
  a.isObj && a.hasConfirmTrue && reqStrLen 3 64 (a.objLookup "tableId") &&
    reqStrLen 1 128 (a.objLookup "label") &&
    reqEnum fieldTypeNames (a.objLookup "fieldType") &&
    optBool (a.objLookup "required") && optBool (a.objLookup "unique") &&
    optStrArr 256 500 (a.objLookup "choices") &&
    optStrMax 10000 (a.objLookup "formula") &&
    optStrLen 3 64 (a.objLookup "lookupTableId") && optNum (a.objLookup "lookupFieldId")

/-- One sortBy entry of QueryRecordsSchema. -/
def sortByEntryOk (v : Json) : Bool :=
  v.isObj && reqNum (v.objLookup "fieldId") &&
    optEnum ["ASC", "DESC"] (v.objLookup "order")

/-- From src/tools/index.ts: QueryRecordsSchema. -/
def QueryRecordsSchemaCheck (a : Json) : Bool :=
  a.isObj && reqStrLen 3 64 (a.objLookup "tableId") &&
    optNumArr (a.objLookup "select") && optStrMax 5000 (a.objLookup "where") &&
    (match a.objLookup "sortBy" with
      | none => true
      | some .undef => true
      | some (.arr items) => items.all sortByEntryOk
      | _ => false) &&
    optNumRange 1 1000 (a.objLookup "top") && optNumRange 0 100000 (a.objLookup "skip")

/-- From src/tools/index.ts: CreateRecordSchema. -/
def CreateRecordSchemaCheck (a : Json) : Bool :=
  a.isObj && a.hasConfirmTrue && reqStrLen 3 64 (a.objLookup "tableId") &&
    recordPayloadOk (a.objLookup "fields")

/-- From src/tools/index.ts: UpdateRecordSchema. -/
def UpdateRecordSchemaCheck (a : Json) : Bool :=
  a.isObj && a.hasConfirmTrue && reqStrLen 3 64 (a.objLookup "tableId") &&
    reqNum (a.objLookup "recordId") && recordPayloadOk (a.objLookup "fields")

/-- From src/tools/index.ts: BulkCreateSchema. -/
def BulkCreateSchemaCheck (a : Json) : Bool :=
  a.isObj && a.hasConfirmTrue && reqStrLen 3 64 (a.objLookup "tableId") &&
    (match a.objLookup "records" with
      | some (.arr items) =>
        decide (items.length ≤ 250) &&
          items.all (fun v => v.isObj && recordPayloadOk (v.objLookup "fields"))
      | _ => false)

/-- From src/tools/index.ts: SearchRecordsSchema. -/
def SearchRecordsSchemaCheck (a : Json) : Bool :=
  a.isObj && reqStrLen 3 64 (a.objLookup "tableId") &&
    reqStrLen 1 200 (a.objLookup "searchTerm") && optNumArr (a.objLookup "fieldIds")

/-- From src/tools/index.ts: CreateRelationshipSchema. -/
def CreateRelationshipSchemaCheck (a : Json) : Bool :=
  a.isObj && a.hasConfirmTrue && reqStrLen 3 64 (a.objLookup "parentTableId") &&
    reqStrLen 3 64 (a.objLookup "childTableId") && reqNum (a.objLookup "foreignKeyFieldId")

/-- One lookupFields entry of CreateAdvancedRelationshipSchema. -/
def lookupFieldEntryOk (v : Json) : Bool :=
  v.isObj && reqNum (v.objLookup "parentFieldId") && reqStr (v.objLookup "childFieldLabel")

/-- From src/tools/index.ts: CreateAdvancedRelationshipSchema. -/
def CreateAdvancedRelationshipSchemaCheck (a : Json) : Bool :=
  a.isObj && a.hasConfirmTrue && reqStr (a.objLookup "parentTableId") &&
    reqStr (a.objLookup "childTableId") && reqStr (a.objLookup "referenceFieldLabel") &&
    (match a.objLookup "lookupFields" with
      | none => true
      | some .undef => true
      | some (.arr items) => items.all lookupFieldEntryOk
      | _ => false) &&
    optEnum ["one-to-many", "many-to-many"] (a.objLookup "relationshipType")

/-- From src/tools/index.ts: CreateLookupFieldSchema. -/
def CreateLookupFieldSchemaCheck (a : Json) : Bool :=
  a.isObj && a.hasConfirmTrue && reqStr (a.objLookup "childTableId") &&
    reqStr (a.objLookup "parentTableId") && reqNum (a.objLookup "referenceFieldId") &&
    reqNum (a.objLookup "parentFieldId") && reqStr (a.objLookup "lookupFieldLabel")

/-- From src/tools/index.ts: ValidateRelationshipSchema. -/
def ValidateRelationshipSchemaCheck (a : Json) : Bool :=
  a.isObj && reqStr (a.objLookup "parentTableId") && reqStr (a.objLookup "childTableId") &&
    reqNum (a.objLookup "foreignKeyFieldId")

/-- One additionalFields entry of CreateJunctionTableSchema. -/
def additionalFieldEntryOk (v : Json) : Bool :=
  v.isObj && reqStr (v.objLookup "label") && reqStr (v.objLookup "fieldType")

/-- From src/tools/index.ts: CreateJunctionTableSchema. -/
def CreateJunctionTableSchemaCheck (a : Json) : Bool :=
  a.isObj && a.hasConfirmTrue && reqStr (a.objLookup "junctionTableName") &&
    reqStr (a.objLookup "table1Id") && reqStr (a.objLookup "table2Id") &&
    reqStr (a.objLookup "table1FieldLabel") && reqStr (a.objLookup "table2FieldLabel") &&
    (match a.objLookup "additionalFields" with
      | none => true
      | some .undef => true
      | some (.arr items) => items.all additionalFieldEntryOk
      | _ => false)

/-- From src/tools/index.ts: GetRelationshipDetailsSchema. -/
def GetRelationshipDetailsSchemaCheck (a : Json) : Bool :=
  a.isObj && reqStr (a.objLookup "tableId") && optBool (a.objLookup "includeFields")

/-- From src/index.ts: UpdateFieldArgsSchema. -/
def UpdateFieldArgsSchemaCheck (a : Json) : Bool :=
  a.isObj && a.hasConfirmTrue && reqStr (a.objLookup "tableId") &&
    reqNum (a.objLookup "fieldId") && optStr (a.objLookup "label") &&
    optBool (a.objLookup "required") && optStrArr 0 0 (a.objLookup "choices")

/-- From src/index.ts: DeleteFieldArgsSchema. -/
def DeleteFieldArgsSchemaCheck (a : Json) : Bool :=
  a.isObj && reqStr (a.objLookup "tableId") && reqNum (a.objLookup "fieldId")

/-- From src/index.ts: GetRecordArgsSchema. -/
def GetRecordArgsSchemaCheck (a : Json) : Bool :=
  a.isObj && reqStr (a.objLookup "tableId") && reqNum (a.objLookup "recordId") &&
    optNumArr (a.objLookup "fieldIds")

/-- From src/index.ts: RunReportArgsSchema. -/
def RunReportArgsSchemaCheck (a : Json) : Bool :=
  a.isObj && reqStr (a.objLookup "tableId") && reqStr (a.objLookup "reportId")

/-- From src/tools/index.ts: CreateWebhookSchema. -/
def CreateWebhookSchemaCheck (prims : ZodPrims) (a : Json) : Bool :=
  a.isObj && a.hasConfirmTrue && reqStrLen 3 64 (a.objLookup "tableId") &&
    reqStrLen 1 128 (a.objLookup "label") && optStrMax 1024 (a.objLookup "description") &&
    (match a.objLookup "webhookUrl" with
      | some (.str s) => prims.isUrl s
      | _ => false) &&
    reqEvents (a.objLookup "webhookEvents") &&
    optEnum ["XML", "JSON", "RAW"] (a.objLookup "messageFormat") &&
    optStrMax 10000 (a.objLookup "messageBody") &&
    optStrRecord (a.objLookup "webhookHeaders") &&
    optEnum ["POST", "GET", "PUT", "PATCH", "DELETE"] (a.objLookup "httpMethod") &&
    optNumArr (a.objLookup "triggerFields")

/-- From src/tools/index.ts: ListWebhooksSchema. -/
def ListWebhooksSchemaCheck (a : Json) : Bool :=
  a.isObj && reqStrLen 3 64 (a.objLookup "tableId")

/-- From src/tools/index.ts: DeleteWebhookSchema. -/
def DeleteWebhookSchemaCheck (a : Json) : Bool :=
  a.isObj && reqStrLen 3 64 (a.objLookup "tableId") && reqStr (a.objLookup "webhookId")

/-- From src/tools/index.ts: TestWebhookSchema. -/
def TestWebhookSchemaCheck (prims : ZodPrims) (a : Json) : Bool :=
  a.isObj &&
    (match a.objLookup "webhookUrl" with
      | some (.str s) => prims.isUrl s
      | _ => false) &&
    reqRecordAny (a.objLookup "testPayload") && optStrRecord (a.objLookup "headers")

/-- From src/tools/index.ts: CreateNotificationSchema. -/
def CreateNotificationSchemaCheck (prims : ZodPrims) (a : Json) : Bool :=
  a.isObj && a.hasConfirmTrue && reqStrLen 3 64 (a.objLookup "tableId") &&
    reqStrLen 1 128 (a.objLookup "label") && optStrMax 1024 (a.objLookup "description") &&
    reqEnum ["add", "modify", "delete"] (a.objLookup "notificationEvent") &&
    (match a.objLookup "recipientEmail" with
      | some (.str s) => prims.isEmail s
      | _ => false) &&
    reqStrLen 1 256 (a.objLookup "messageSubject") &&
    reqStrLen 1 10000 (a.objLookup "messageBody") &&
    optBool (a.objLookup "includeAllFields") && optNumArr (a.objLookup "triggerFields")

/-- From src/tools/index.ts: ListNotificationsSchema. -/
def ListNotificationsSchemaCheck (a : Json) : Bool :=
  a.isObj && reqStrLen 3 64 (a.objLookup "tableId")

/-- From src/tools/index.ts: DeleteNotificationSchema. -/
def DeleteNotificationSchemaCheck (a : Json) : Bool :=
  a.isObj && reqStrLen 3 64 (a.objLookup "tableId") && reqStr (a.objLookup "notificationId")

/-- From src/index.ts: `schema.parse(args ?? {})` replaces a null or
undefined argument bundle by the empty object before validation. -/
def argsOrEmpty : Json → Json
  | .null => .obj .nil
  | .undef => .obj .nil
  | a => a

/-- Outcome of the per-tool argument validation step of the request
handler's switch. -/
inductive ParseOutcome where
  | ok
  | invalid
  | unknown
deriving Repr, DecidableEq

/-- From src/index.ts: the per-case `parseArgs` invocation of the tool
dispatch switch; `.unknown` is the default branch (MethodNotFound), and
cases that take no arguments validate nothing. -/
def parseToolArgs (prims : ZodPrims) (name : String) (a : Json) : ParseOutcome :=
  match name with
  | "quickbase_get_app_info" => .ok
  | "quickbase_get_tables" => .ok
  | "quickbase_test_connection" => .ok
  | "quickbase_create_table" => if CreateTableSchemaCheck a then .ok else .invalid
  | "quickbase_get_table_info" => if TableIdSchemaCheck a then .ok else .invalid
  | "quickbase_delete_table" => if TableIdSchemaCheck a then .ok else .invalid
  | "quickbase_get_table_fields" => if TableIdSchemaCheck a then .ok else .invalid
  | "quickbase_create_field" => if CreateFieldSchemaCheck a then .ok else .invalid
  | "quickbase_update_field" => if UpdateFieldArgsSchemaCheck a then .ok else .invalid
  | "quickbase_delete_field" => if DeleteFieldArgsSchemaCheck a then .ok else .invalid
  | "quickbase_query_records" => if QueryRecordsSchemaCheck a then .ok else .invalid
  | "quickbase_get_record" => if GetRecordArgsSchemaCheck a then .ok else .invalid
  | "quickbase_create_record" => if CreateRecordSchemaCheck a then .ok else .invalid
  | "quickbase_update_record" => if UpdateRecordSchemaCheck a then .ok else .invalid
  | "quickbase_delete_record" => if RecordIdSchemaCheck a then .ok else .invalid
  | "quickbase_bulk_create_records" => if BulkCreateSchemaCheck a then .ok else .invalid
  | "quickbase_search_records" => if SearchRecordsSchemaCheck a then .ok else .invalid
  | "quickbase_create_relationship" => if CreateRelationshipSchemaCheck a then .ok else .invalid
  | "quickbase_get_relationships" => if TableIdSchemaCheck a then .ok else .invalid
  | "quickbase_get_reports" => if TableIdSchemaCheck a then .ok else .invalid
  | "quickbase_run_report" => if RunReportArgsSchemaCheck a then .ok else .invalid
  | "quickbase_create_advanced_relationship" =>
    if CreateAdvancedRelationshipSchemaCheck a then .ok else .invalid
  | "quickbase_create_lookup_field" => if CreateLookupFieldSchemaCheck a then .ok else .invalid
  | "quickbase_validate_relationship" => if ValidateRelationshipSchemaCheck a then .ok else .invalid
  | "quickbase_get_relationship_details" =>
    if GetRelationshipDetailsSchemaCheck a then .ok else .invalid
  | "quickbase_create_junction_table" => if CreateJunctionTableSchemaCheck a then .ok else .invalid
  | "quickbase_create_webhook" => if CreateWebhookSchemaCheck prims a then .ok else .invalid
  | "quickbase_list_webhooks" => if ListWebhooksSchemaCheck a then .ok else .invalid
  | "quickbase_delete_webhook" => if DeleteWebhookSchemaCheck a then .ok else .invalid
  | "quickbase_test_webhook" => if TestWebhookSchemaCheck prims a then .ok else .invalid
  | "quickbase_create_notification" =>
    if CreateNotificationSchemaCheck prims a then .ok else .invalid
  | "quickbase_list_notifications" => if ListNotificationsSchemaCheck a then .ok else .invalid
  | "quickbase_delete_notification" => if DeleteNotificationSchemaCheck a then .ok else .invalid
  | _ => .unknown

/-- Outcome of one tool invocation of the request handler. -/
inductive ToolOutcome where
  | refusedPolicy (msg : String)
  | refusedArgs
  | unknownTool
  | executed
deriving Repr, DecidableEq

/-- From src/index.ts (setupHandlers, CallToolRequestSchema handler): the
access-policy guard runs first; each switch case validates its arguments
before invoking the QuickBase client, whose remote calls are abstracted by
`exec`; unknown names reach the default branch.  The issued remote calls
are returned alongside the outcome: a refused invocation issues none. -/
def handleToolCall (prims : ZodPrims) (exec : String → Json → List RemoteCall)
    (name : String) (args : Json) (readOnly allowDestructive : Bool) :
    List RemoteCall × ToolOutcome :=
  match assertToolAllowed name args readOnly allowDestructive with
  | some msg => ([], .refusedPolicy msg)
  | none =>
    match parseToolArgs prims name (argsOrEmpty args) with
    | .unknown => ([], .unknownTool)
    | .invalid => ([], .refusedArgs)
    | .ok => (exec name args, .executed)

/-- The schema-mutating operations of claim C7: the tools the guard itself
gates on confirmation, plus the creation tools whose zod schema carries the
`confirm: z.literal(true)` field (the destructive delete tools are gated by
the separate destructive-operation toggle). -/
def schemaMutatingTools : List String :=
  confirmationRequiredTools ++
    ["quickbase_create_advanced_relationship", "quickbase_create_lookup_field",
     "quickbase_create_junction_table", "quickbase_create_webhook",
     "quickbase_create_notification"]

/-- A concrete remote service used to evaluate the theorems on concrete
inputs: call number k is answered with field identifier 10 + k, table
creations yield "bux999". -/
def svcEx : RemoteService :=
  ⟨fun k => .ok (10 + k), fun _ => .ok "bux999"⟩

/-- A concrete remote service whose second call fails. -/
def svcFailEx : RemoteService :=
  ⟨fun k => if k == 0 then .ok 10 else .error "Cannot create field",
   fun _ => .ok "bux999"⟩

/-- A concrete parent table: records 1 and 2. -/
def ptEx : TableDesc := ⟨[⟨3, "text"⟩], [⟨1, []⟩, ⟨2, []⟩]⟩

/-- A concrete child table: reference field 7, one record pointing at
parent record 1. -/
def ctEx : TableDesc := ⟨[⟨7, "reference"⟩], [⟨21, [(7, 1)]⟩]⟩

/-- A concrete schema environment with the two tables above. -/
def envEx : SchemaEnv := [("tblP", ptEx), ("tblC", ctEx)]

/-- A concrete zod-primitive instantiation used on concrete inputs. -/
def primsEx : ZodPrims :=
  ⟨fun _ => true, fun _ => true⟩

namespace Lemmas

/-- Success of step 2 of the Relationship Builder: the trace lists one
lookup-creation call per spec in input order and the returned identifiers
are the service's answers to calls k, k+1, ... in order. -/
theorem runLookupCreations_ok (svc : RemoteService) (p c : String) (rid : Nat) :
    ∀ (specs : List LookupSpec) (k : Nat) (ids : List Nat),
      (runLookupCreations svc p c rid specs k).2 = .ok ids →
      ids.length = specs.length ∧
      (runLookupCreations svc p c rid specs k).1 =
        specs.map (fun s =>
          RemoteCall.createLookupFieldCall c s.childFieldLabel p s.parentFieldId rid) ∧
      ∀ i (h : i < ids.length), svc.fieldIdAt (k + i) = .ok (ids.get ⟨i, h⟩) := by
  intro specs
  induction specs with
  | nil =>
    intro k ids h
    simp only [runLookupCreations] at h
    cases h
    refine ⟨rfl, by simp [runLookupCreations], ?_⟩
    intro i h
    simp at h
  | cons s rest ih =>
    intro k ids h
    simp only [runLookupCreations] at h ⊢
    cases hk : svc.fieldIdAt k with
    | error e => rw [hk] at h; simp at h
    | ok fid =>
      rw [hk] at h
      cases hr : (runLookupCreations svc p c rid rest (k + 1)).2 with
      | error e => rw [hr] at h; simp at h
      | ok ids' =>
        rw [hr] at h
        simp only [Except.ok.injEq] at h
        subst h
        obtain ⟨hlen, htrace, hpt⟩ := ih (k + 1) ids' hr
        refine ⟨by simp [hlen], by simp [htrace], ?_⟩
        intro i h
        cases i with
        | zero => simpa using hk
        | succ i' =>
          have hlt : i' < ids'.length := by simpa using h
          have := hpt i' hlt
          have hk' : k + (i' + 1) = (k + 1) + i' := by omega
          rw [hk']
          simpa using this

/-- Failure of step 2 of the Relationship Builder: the reported reason is
the one the service produced. -/
theorem runLookupCreations_error (svc : RemoteService) (p c : String) (rid : Nat) :
    ∀ (specs : List LookupSpec) (k : Nat) (e : String),
      (runLookupCreations svc p c rid specs k).2 = .error e →
      ∃ i, svc.fieldIdAt i = .error e := by
  intro specs
  induction specs with
  | nil =>
    intro k e h
    simp [runLookupCreations] at h
  | cons s rest ih =>
    intro k e h
    simp only [runLookupCreations] at h
    cases hk : svc.fieldIdAt k with
    | error e' =>
      rw [hk] at h
      simp only [Except.error.injEq] at h
      subst h
      exact ⟨k, hk⟩
    | ok fid =>
      rw [hk] at h
      cases hr : (runLookupCreations svc p c rid rest (k + 1)).2 with
      | error e' =>
        rw [hr] at h
        simp only [Except.error.injEq] at h
        subst h
        exact ih (k + 1) _ hr
      | ok ids' => rw [hr] at h; simp at h

/-- Success of step 4 of the Junction Table Builder: one field-creation
call per extra field, in input order. -/
theorem runExtraFieldCreations_ok (svc : RemoteService) (t : String) :
    ∀ (extras : List ExtraFieldSpec) (k : Nat) (ids : List Nat),
      (runExtraFieldCreations svc t extras k).2 = .ok ids →
      ids.length = extras.length ∧
      (runExtraFieldCreations svc t extras k).1 =
        extras.map (fun f => RemoteCall.createFieldCall t f.label f.fieldType) := by
  intro extras
  induction extras with
  | nil =>
    intro k ids h
    simp only [runExtraFieldCreations] at h
    cases h
    exact ⟨rfl, by simp [runExtraFieldCreations]⟩
  | cons f rest ih =>
    intro k ids h
    simp only [runExtraFieldCreations] at h ⊢
    cases hk : svc.fieldIdAt k with
    | error e => rw [hk] at h; simp at h
    | ok fid =>
      rw [hk] at h
      cases hr : (runExtraFieldCreations svc t rest (k + 1)).2 with
      | error e => rw [hr] at h; simp at h
      | ok ids' =>
        rw [hr] at h
        simp only [Except.ok.injEq] at h
        subst h
        obtain ⟨hlen, htrace⟩ := ih (k + 1) ids' hr
        exact ⟨by simp [hlen], by simp [htrace]⟩

/-- Failure of step 4 of the Junction Table Builder: the reported reason is
the one the service produced. -/
theorem runExtraFieldCreations_error (svc : RemoteService) (t : String) :
    ∀ (extras : List ExtraFieldSpec) (k : Nat) (e : String),
      (runExtraFieldCreations svc t extras k).2 = .error e →
      ∃ i, svc.fieldIdAt i = .error e := by
  intro extras
  induction extras with
  | nil =>
    intro k e h
    simp [runExtraFieldCreations] at h
  | cons f rest ih =>
    intro k e h
    simp only [runExtraFieldCreations] at h
    cases hk : svc.fieldIdAt k with
    | error e' =>
      rw [hk] at h
      simp only [Except.error.injEq] at h
      subst h
      exact ⟨k, hk⟩
    | ok fid =>
      rw [hk] at h
      cases hr : (runExtraFieldCreations svc t rest (k + 1)).2 with
      | error e' =>
        rw [hr] at h
        simp only [Except.error.injEq] at h
        subst h
        exact ih (k + 1) _ hr
      | ok ids' => rw [hr] at h; simp at h

end Lemmas

/-- C1: for every list lookupSpecs of length N passed to the Relationship
Builder (createAdvancedRelationship), the returned lookupFieldIds array has
length N, its i-th element is the identifier the service assigned to the
i-th lookup-creation call (which is the call for the i-th input entry, so
the identifiers are in input order), and it is the empty list when
lookupSpecs is empty or omitted (the omitted default is the empty list). -/
theorem c1_lookup_ids_length_and_order :
    ∀ (svc : RemoteService) (p c lbl : String) (specs : List LookupSpec)
      (kind : RelationshipType) (r : AdvancedRelationshipResult),
      (createAdvancedRelationship svc p c lbl specs kind).2 = .ok r →
      r.lookupFieldIds.length = specs.length ∧
      (createAdvancedRelationship svc p c lbl specs kind).1 =
        RemoteCall.createReferenceField c lbl p ::
          specs.map (fun s =>
            RemoteCall.createLookupFieldCall c s.childFieldLabel p s.parentFieldId
              r.referenceFieldId) ∧
      (∀ i (h : i < r.lookupFieldIds.length),
        svc.fieldIdAt (1 + i) = .ok (r.lookupFieldIds.get ⟨i, h⟩)) ∧
      (specs = [] → r.lookupFieldIds = []) := by
  intro svc p c lbl specs kind r h
  simp only [createAdvancedRelationship] at h ⊢
  split at h
  next e hk => simp at h
  next refId hk =>
    split at h
    next e hr => simp at h
    next ids hr =>
      simp only [Except.ok.injEq] at h
      subst h
      obtain ⟨hlen, htrace, hpt⟩ := Lemmas.runLookupCreations_ok svc p c refId specs 1 ids hr
      refine ⟨by simpa using hlen, by simp [htrace], ?_, ?_⟩
      · intro i hlt
        exact hpt i (by simpa using hlt)
      · intro hspecs
        subst hspecs
        simpa using List.eq_nil_of_length_eq_zero (by simpa using hlen)

/-- C1 witness: a concrete run with one lookup spec returns one lookup
field identifier. -/
theorem c1_witness :
    (AdvancedRelationshipResult.mk 10 [11]).lookupFieldIds.length =
      ([LookupSpec.mk 4 "Company Name"] : List LookupSpec).length :=
  (c1_lookup_ids_length_and_order svcEx "bux123" "bux124" "Company Reference"
    [LookupSpec.mk 4 "Company Name"] .oneToMany ⟨10, [11]⟩ (by rfl)).1

/-- C4: a successful Relationship Builder run with N lookup specs issues
exactly 1 + N remote calls, all of them field creations (exactly 1 for
N = 0), and the relationshipKind argument does not change the result or
the call sequence at all. -/
theorem c4_call_count_and_kind_independence :
    ∀ (svc : RemoteService) (p c lbl : String) (specs : List LookupSpec)
      (k1 k2 : RelationshipType) (r : AdvancedRelationshipResult),
      ((createAdvancedRelationship svc p c lbl specs k1).2 = .ok r →
        (createAdvancedRelationship svc p c lbl specs k1).1.length = 1 + specs.length ∧
        ∀ call ∈ (createAdvancedRelationship svc p c lbl specs k1).1,
          call.isFieldCreation = true) ∧
      createAdvancedRelationship svc p c lbl specs k1 =
        createAdvancedRelationship svc p c lbl specs k2 := by
  intro svc p c lbl specs k1 k2 r
  refine ⟨?_, rfl⟩
  intro h
  simp only [createAdvancedRelationship] at h ⊢
  split at h
  next e hk => simp at h
  next refId hk =>
    split at h
    next e hr => simp at h
    next ids hr =>
      obtain ⟨hlen, htrace, hpt⟩ := Lemmas.runLookupCreations_ok svc p c refId specs 1 ids hr
      constructor
      · simp [htrace, Nat.add_comm]
      · intro call hc
        simp [htrace, List.mem_cons, List.mem_map] at hc
        rcases hc with rfl | ⟨s, hs, rfl⟩ <;> simp [RemoteCall.isFieldCreation]

/-- C4 witness: a concrete run with no lookup specs issues exactly one
remote call. -/
theorem c4_witness :
    (createAdvancedRelationship svcEx "bux123" "bux124" "Parent" []
      RelationshipType.oneToMany).1.length = 1 + ([] : List LookupSpec).length :=
  ((c4_call_count_and_kind_independence svcEx "bux123" "bux124" "Parent" []
    .oneToMany .manyToMany ⟨10, []⟩).1 (by rfl)).1

/-- C3: a successful Junction Table Builder run with M extra fields issues
exactly 3 + M remote calls: one table creation, then one reference field
toward table1Id labelled table1Label, then one reference field toward
table2Id labelled table2Label, then one field creation per extra field in
input order — and no other remote calls (the trace is exactly that list).
With no extra fields the returned extraFieldIds is the empty list. -/
theorem c3_junction_call_sequence :
    ∀ (svc : RemoteService) (nm t1 t2 l1 l2 : String)
      (extras : List ExtraFieldSpec) (r : JunctionTableResult),
      (createJunctionTable svc nm t1 t2 l1 l2 extras).2 = .ok r →
      (createJunctionTable svc nm t1 t2 l1 l2 extras).1 =
        RemoteCall.createTable nm ::
        RemoteCall.createReferenceField r.junctionTableId l1 t1 ::
        RemoteCall.createReferenceField r.junctionTableId l2 t2 ::
        extras.map (fun f =>
          RemoteCall.createFieldCall r.junctionTableId f.label f.fieldType) ∧
      (createJunctionTable svc nm t1 t2 l1 l2 extras).1.length = 3 + extras.length ∧
      (extras = [] → r.extraFieldIds = []) := by
  intro svc nm t1 t2 l1 l2 extras r h
  simp only [createJunctionTable] at h ⊢
  split at h
  next e ht => simp at h
  next jid ht =>
    split at h
    next e h1 => simp at h
    next f1 h1 =>
      split at h
      next e h2 => simp at h
      next f2 h2 =>
        split at h
        next e hr => simp at h
        next ids hr =>
          simp only [Except.ok.injEq] at h
          subst h
          obtain ⟨hlen, htrace⟩ := Lemmas.runExtraFieldCreations_ok svc jid extras 3 ids hr
          refine ⟨by simp [htrace], by simp [htrace]; omega, ?_⟩
          intro hextras
          subst hextras
          simpa using List.eq_nil_of_length_eq_zero (by simpa using hlen)

/-- C3 witness: a concrete run with no extra fields issues exactly the
table creation and the two reference-field creations. -/
theorem c3_witness :
    (createJunctionTable svcEx "Companies_Contacts" "bux123" "bux124"
      "Company" "Contact" []).1.length = 3 + ([] : List ExtraFieldSpec).length :=
  ((c3_junction_call_sequence svcEx "Companies_Contacts" "bux123" "bux124"
    "Company" "Contact" [] ⟨"bux999", 11, 12, []⟩ (by rfl)).2).1

/-- C5: when a remote call issued inside createAdvancedRelationship or
createJunctionTable fails, the method rejects with the original failure
reason: the returned error is exactly an error the remote service produced
on one of its calls (no catching and reinterpretation occurs). -/
theorem c5_error_propagation :
    ∀ (svc : RemoteService) (p c lbl : String) (specs : List LookupSpec)
      (kind : RelationshipType) (nm t1 t2 l1 l2 : String)
      (extras : List ExtraFieldSpec) (e1 e2 : String),
      ((createAdvancedRelationship svc p c lbl specs kind).2 = .error e1 →
        ∃ i, svc.fieldIdAt i = .error e1) ∧
      ((createJunctionTable svc nm t1 t2 l1 l2 extras).2 = .error e2 →
        svc.tableIdAt 0 = .error e2 ∨ ∃ i, svc.fieldIdAt i = .error e2) := by
  intro svc p c lbl specs kind nm t1 t2 l1 l2 extras e1 e2
  constructor
  · intro h
    simp only [createAdvancedRelationship] at h
    split at h
    next e hk =>
      simp only [Except.error.injEq] at h
      subst h
      exact ⟨0, hk⟩
    next refId hk =>
      split at h
      next e hr =>
        simp only [Except.error.injEq] at h
        subst h
        exact Lemmas.runLookupCreations_error svc p c refId specs 1 _ hr
      next ids hr => simp at h
  · intro h
    simp only [createJunctionTable] at h
    split at h
    next e ht =>
      simp only [Except.error.injEq] at h
      subst h
      exact Or.inl ht
    next jid ht =>
      split at h
      next e h1 =>
        simp only [Except.error.injEq] at h
        subst h
        exact Or.inr ⟨1, h1⟩
      next f1 h1 =>
        split at h
        next e h2 =>
          simp only [Except.error.injEq] at h
          subst h
          exact Or.inr ⟨2, h2⟩
        next f2 h2 =>
          split at h
          next e hr =>
            simp only [Except.error.injEq] at h
            subst h
            exact Or.inr (Lemmas.runExtraFieldCreations_error svc jid extras 3 _ hr)
          next ids hr => simp at h

/-- C5 witness: a concrete failing run propagates the service's message. -/
theorem c5_witness :
    ∃ i, svcFailEx.fieldIdAt i = .error "Cannot create field" :=
  (c5_error_propagation svcFailEx "bux123" "bux124" "Ref"
    [LookupSpec.mk 4 "Company Name"] .oneToMany "J" "t1" "t2" "l1" "l2" []
    "Cannot create field" "x").1 (by rfl)

/-- C6: validateRelationship is a read-only diagnostic: on every
invocation, whether the checks pass or fail, every remote call it issues
is a read (table info, field list, record query) and never a create,
update or delete. -/
theorem c6_validator_read_only :
    ∀ (env : SchemaEnv) (p c : String) (fk : Nat),
      ((validateRelationship env p c fk).1.all (fun call => !call.isMutation)) = true := by
  intro env p c fk
  simp only [validateRelationship]
  cases hp : env.lookup p with
  | none => simp [RemoteCall.isMutation]
  | some pt =>
    dsimp only
    cases hc : env.lookup c with
    | none => simp [RemoteCall.isMutation]
    | some ct =>
      dsimp only
      cases hf : ct.fields.find? (fun f => f.id == fk) with
      | none => simp [RemoteCall.isMutation]
      | some f =>
        dsimp only
        split
        · simp [RemoteCall.isMutation]
        · split <;> simp [RemoteCall.isMutation]

namespace Lemmas

/-- A string of length zero is the empty string. -/
theorem string_eq_empty_of_length (s : String) (h : s.length = 0) : s = "" := by
  cases s with
  | mk data =>
    have hd : data = [] := List.eq_nil_of_length_eq_zero (by simpa [String.length] using h)
    subst hd
    rfl

/-- The TRUE_VALUES and FALSE_VALUES sets are disjoint. -/
theorem trueValues_falseValues_disjoint :
    ∀ s, s ∈ trueValues → s ∉ falseValues := by
  intro s hs
  fin_cases hs <;> decide

end Lemmas

/-- C9 counterexample: with defaultValue = true and the value "banana"
(whose normalization is in neither set), envFlag returns true even though
the trimmed, lowercased value is not one of '1', 'true', 'yes', 'y', 'on';
this refutes the claim's "returns true only if" direction. -/
theorem c9_counterexample :
    envFlag (some "banana") true = true ∧
    trueValues.contains (envNormalize "banana") = false := by
  constructor
  · decide
  · decide

/-- C9 amended: envFlag returns true if the trimmed, lowercased value is
one of '1', 'true', 'yes', 'y', 'on'; returns false if it is one of '0',
'false', 'no', 'n', 'off'; and returns defaultValue in every other case,
including when the variable is unset or its trimmed value is empty. -/
theorem c9_envflag_behaviour :
    ∀ (v : String) (d : Bool),
      (trueValues.contains (envNormalize v) = true → envFlag (some v) d = true) ∧
      (falseValues.contains (envNormalize v) = true → envFlag (some v) d = false) ∧
      (trueValues.contains (envNormalize v) = false →
        falseValues.contains (envNormalize v) = false → envFlag (some v) d = d) ∧
      envFlag none d = d := by
  intro v d
  refine ⟨?_, ?_, ?_, rfl⟩
  · intro hT
    have h0 : ((envNormalize v).length == 0) = false := by
      by_cases hlen : (envNormalize v).length = 0
      · have he := Lemmas.string_eq_empty_of_length _ hlen
        rw [he] at hT
        exact absurd hT (by decide)
      · simpa using hlen
    have hTm : envNormalize v ∈ trueValues := by simpa using hT
    simp [envFlag, h0, hTm]
  · intro hF
    have h0 : ((envNormalize v).length == 0) = false := by
      by_cases hlen : (envNormalize v).length = 0
      · have he := Lemmas.string_eq_empty_of_length _ hlen
        rw [he] at hF
        exact absurd hF (by decide)
      · simpa using hlen
    have hFm : envNormalize v ∈ falseValues := by simpa using hF
    have hTm : envNormalize v ∉ trueValues := by
      intro hx
      exact Lemmas.trueValues_falseValues_disjoint _ hx hFm
    simp [envFlag, h0, hTm, hFm]
  · intro hT hF
    have hTm : envNormalize v ∉ trueValues := by simpa using hT
    have hFm : envNormalize v ∉ falseValues := by simpa using hF
    by_cases hlen : ((envNormalize v).length == 0) = true
    · simp [envFlag, hlen]
    · simp [envFlag, (by simpa using hlen : ¬(envNormalize v).length = 0), hTm, hFm]

/-- C9 witness: the value "yes" yields true regardless of the default. -/
theorem c9_witness : envFlag (some "yes") false = true :=
  (c9_envflag_behaviour "yes" false).1 (by decide)

/-- C10: the read-only allowlist is disjoint from both the destructive
tool set and the confirmation-required tool set, and for every tool name
in readOnlyAllowedTools, assertToolAllowed never throws, whatever the
readOnly and allowDestructive flags and the argument bundle are. -/
theorem c10_allowlist_disjoint_and_safe :
    (∀ n ∈ readOnlyAllowedTools, n ∉ destructiveTools ∧ n ∉ confirmationRequiredTools) ∧
    (∀ n ∈ readOnlyAllowedTools, ∀ (args : Json) (ro ad : Bool),
      assertToolAllowed n args ro ad = none) := by
  constructor
  · decide
  · intro n hn args ro ad
    fin_cases hn <;> simp +decide [assertToolAllowed]

/-- C10 witness: a read-only tool passes the guard in read-only mode with
destructive tools disabled. -/
theorem c10_witness :
    assertToolAllowed "quickbase_get_record" (Json.obj .nil) true false = none :=
  c10_allowlist_disjoint_and_safe.2 "quickbase_get_record" (by decide)
    (Json.obj .nil) true false

namespace Lemmas

/-- The orphan scan finds nothing exactly when no child record's
foreign-key value points at a non-existent parent record. -/
theorem orphanRecordIds_eq_nil_iff (pt ct : TableDesc) (fk : Nat) :
    orphanRecordIds pt ct fk = [] ↔ noOrphans pt ct fk := by
  unfold orphanRecordIds noOrphans
  rw [List.map_eq_nil_iff, List.filter_eq_nil_iff]
  constructor
  · intro h r hr v hv
    have hpred := h r hr
    simp [hv] at hpred
    simpa using hpred
  · intro h r hr
    cases hv : r.values.lookup fk with
    | none => simp
    | some v =>
      have hm := h r hr v hv
      simp [hv]
      simpa [List.mem_map] using hm

end Lemmas

/-- C2: validateRelationship returns isValid = true together with an empty
issues list if and only if the parent table exists, the child table
exists, foreignKeyFieldId exists among the child table's fields with kind
"reference", and no child record's foreign-key value points at a
non-existent parent record; in every failing case isValid is false and
issues is non-empty.  The hypothesis states the service invariant that
field identifiers are unique within a table. -/
theorem c2_validate_relationship_iff :
    ∀ (env : SchemaEnv) (p c : String) (fk : Nat),
      (∀ ct, env.lookup c = some ct → (ct.fields.map FieldDesc.id).Nodup) →
      ((((validateRelationship env p c fk).2.isValid = true ∧
            (validateRelationship env p c fk).2.issues = []) ↔
          ∃ pt ct, env.lookup p = some pt ∧ env.lookup c = some ct ∧
            fkFieldIsReference ct fk ∧ noOrphans pt ct fk) ∧
        ((¬∃ pt ct, env.lookup p = some pt ∧ env.lookup c = some ct ∧
            fkFieldIsReference ct fk ∧ noOrphans pt ct fk) →
          (validateRelationship env p c fk).2.isValid = false ∧
          (validateRelationship env p c fk).2.issues ≠ [])) := by
  intro env p c fk hnd
  cases hp : env.lookup p with
  | none =>
    have hres : (validateRelationship env p c fk).2 =
        ⟨false, ["Parent table " ++ p ++ " not found"], []⟩ := by
      simp [validateRelationship, hp]
    have hB : ¬∃ pt ct, (none : Option TableDesc) = some pt ∧
        env.lookup c = some ct ∧ fkFieldIsReference ct fk ∧ noOrphans pt ct fk := by
      rintro ⟨pt, ct, hpt, -⟩
      cases hpt
    rw [hres]
    exact ⟨⟨fun h => absurd h.2 (by simp), fun h => absurd h hB⟩,
      fun _ => ⟨rfl, by simp⟩⟩
  | some pt =>
    cases hc : env.lookup c with
    | none =>
      have hres : (validateRelationship env p c fk).2 =
          ⟨false, ["Child table " ++ c ++ " not found"], []⟩ := by
        simp [validateRelationship, hp, hc]
      have hB : ¬∃ pt' ct, some pt = some pt' ∧
          (none : Option TableDesc) = some ct ∧
          fkFieldIsReference ct fk ∧ noOrphans pt' ct fk := by
        rintro ⟨pt', ct, -, hct, -⟩
        cases hct
      rw [hres]
      exact ⟨⟨fun h => absurd h.2 (by simp), fun h => absurd h hB⟩,
        fun _ => ⟨rfl, by simp⟩⟩
    | some ct =>
      cases hf : ct.fields.find? (fun f => f.id == fk) with
      | none =>
        have hres : (validateRelationship env p c fk).2 =
            ⟨false, ["Foreign key field " ++ toString fk
              ++ " not found in child table"], []⟩ := by
          simp [validateRelationship, hp, hc, hf]
        have hnofield : ¬fkFieldIsReference ct fk := by
          rintro ⟨g, hg, hgid, -⟩
          have hng := List.find?_eq_none.mp hf g hg
          simp [hgid] at hng
        have hB : ¬∃ pt' ct', some pt = some pt' ∧ some ct = some ct' ∧
            fkFieldIsReference ct' fk ∧ noOrphans pt' ct' fk := by
          rintro ⟨pt', ct', -, hct, href, -⟩
          injection hct with hcteq
          subst hcteq
          exact hnofield href
        rw [hres]
        exact ⟨⟨fun h => absurd h.2 (by simp), fun h => absurd h hB⟩,
          fun _ => ⟨rfl, by simp⟩⟩
      | some f =>
        have hfmem : f ∈ ct.fields := List.mem_of_find?_eq_some hf
        have hfid : f.id = fk := by simpa using List.find?_some hf
        by_cases hft : f.fieldType = "reference"
        · by_cases ho : (orphanRecordIds pt ct fk).isEmpty
          · have hres : (validateRelationship env p c fk).2 = ⟨true, [], []⟩ := by
              simp [validateRelationship, hp, hc, hf, hft, ho]
            have hno : noOrphans pt ct fk :=
              (Lemmas.orphanRecordIds_eq_nil_iff pt ct fk).mp
                (by simpa [List.isEmpty_iff] using ho)
            have hB : ∃ pt' ct', some pt = some pt' ∧ some ct = some ct' ∧
                fkFieldIsReference ct' fk ∧ noOrphans pt' ct' fk :=
              ⟨pt, ct, rfl, rfl, ⟨f, hfmem, hfid, hft⟩, hno⟩
            rw [hres]
            exact ⟨⟨fun _ => hB, fun _ => ⟨rfl, rfl⟩⟩, fun h => absurd hB h⟩
          · have hres : (validateRelationship env p c fk).2 =
                ⟨false, ["Found " ++ toString (orphanRecordIds pt ct fk).length
                  ++ " orphaned child records"], orphanRecordIds pt ct fk⟩ := by
              simp [validateRelationship, hp, hc, hf, hft, ho]
            have hnoneq : ¬noOrphans pt ct fk := by
              intro hno
              have hnil := (Lemmas.orphanRecordIds_eq_nil_iff pt ct fk).mpr hno
              simp [hnil] at ho
            have hB : ¬∃ pt' ct', some pt = some pt' ∧ some ct = some ct' ∧
                fkFieldIsReference ct' fk ∧ noOrphans pt' ct' fk := by
              rintro ⟨pt', ct', hpt, hct, -, hno⟩
              injection hpt with hpteq
              subst hpteq
              injection hct with hcteq
              subst hcteq
              exact hnoneq hno
            rw [hres]
            exact ⟨⟨fun h => absurd h.1 (by simp), fun h => absurd h hB⟩,
              fun _ => ⟨rfl, by simp⟩⟩
        · have hres : (validateRelationship env p c fk).2 =
              ⟨false, ["Field " ++ toString fk ++ " is not a reference field"], []⟩ := by
            simp [validateRelationship, hp, hc, hf, hft]
          have hndc := hnd ct hc
          have hnofield : ¬fkFieldIsReference ct fk := by
            rintro ⟨g, hg, hgid, hgt⟩
            have hgf : g = f :=
              List.inj_on_of_nodup_map hndc hg hfmem (by rw [hgid, hfid])
            rw [hgf] at hgt
            exact hft hgt
          have hB : ¬∃ pt' ct', some pt = some pt' ∧ some ct = some ct' ∧
              fkFieldIsReference ct' fk ∧ noOrphans pt' ct' fk := by
            rintro ⟨pt', ct', -, hct, href, -⟩
            injection hct with hcteq
            subst hcteq
            exact hnofield href
          rw [hres]
          exact ⟨⟨fun h => absurd h.2 (by simp), fun h => absurd h hB⟩,
            fun _ => ⟨rfl, by simp⟩⟩

/-- C2 witness: in the concrete environment the validation succeeds with
no issues. -/
theorem c2_witness :
    (validateRelationship envEx "tblP" "tblC" 7).2.isValid = true ∧
    (validateRelationship envEx "tblP" "tblC" 7).2.issues = [] := by
  refine (c2_validate_relationship_iff envEx "tblP" "tblC" 7 ?_).1.mpr
    ⟨ptEx, ctEx, by decide, by decide, ⟨⟨7, "reference"⟩, by decide, rfl, rfl⟩, ?_⟩
  · intro ct hct
    have hl : envEx.lookup "tblC" = some ctEx := by decide
    rw [hl] at hct
    injection hct with h
    subst h
    decide
  · intro r hr v hv
    simp [ctEx] at hr
    subst hr
    simp at hv
    subst hv
    decide

namespace Lemmas

/-- The guard's confirmation test and the schemas' confirm-literal test
agree: replacing a null or undefined bundle by the empty object does not
change whether confirm = true is present. -/
theorem hasConfirmTrue_argsOrEmpty (args : Json) :
    (argsOrEmpty args).hasConfirmTrue = args.hasConfirmTrue := by
  cases args <;> rfl

end Lemmas

/-- C7: when the process is configured read-only, every operation outside
the read-only allowlist is refused with a policy error before any remote
call is made (the issued-call list is empty); and every schema-mutating
operation — the guard's confirmation-required tools together with the
confirm-gated creation tools, which include build relationship, build
lookup field and build junction table — is refused before any remote call
unless the argument bundle carries confirm = true. -/
theorem c7_policy_and_confirmation_gating :
    ∀ (prims : ZodPrims) (exec : String → Json → List RemoteCall)
      (name : String) (args : Json) (ro ad : Bool),
      (ro = true → readOnlyAllowedTools.contains name = false →
        handleToolCall prims exec name args ro ad =
          ([], .refusedPolicy
            ("Server is running in read-only mode (QB_READONLY=true). Tool \""
              ++ name ++ "\" is not allowed."))) ∧
      (schemaMutatingTools.contains name = true → args.hasConfirmTrue = false →
        (handleToolCall prims exec name args ro ad).1 = [] ∧
        (handleToolCall prims exec name args ro ad).2 ≠ .executed) := by
  intro prims exec name args ro ad
  constructor
  · intro hro hallow
    subst hro
    have hal : name ∉ readOnlyAllowedTools := by simpa using hallow
    simp [handleToolCall, assertToolAllowed, hal]
  · intro hm hc
    have hmem : name ∈ schemaMutatingTools := by simpa using hm
    fin_cases hmem <;>
      cases ro <;>
        simp +decide [handleToolCall, assertToolAllowed, parseToolArgs,
          CreateTableSchemaCheck, CreateFieldSchemaCheck, UpdateFieldArgsSchemaCheck,
          CreateRecordSchemaCheck, UpdateRecordSchemaCheck, BulkCreateSchemaCheck,
          CreateRelationshipSchemaCheck, CreateAdvancedRelationshipSchemaCheck,
          CreateLookupFieldSchemaCheck, CreateJunctionTableSchemaCheck,
          CreateWebhookSchemaCheck, CreateNotificationSchemaCheck,
          Lemmas.hasConfirmTrue_argsOrEmpty, hc]

/-- C7 witness: a build-junction-table invocation without confirm = true is
refused and issues no remote call. -/
theorem c7_witness :
    (handleToolCall primsEx (fun _ _ => [RemoteCall.createTable "x"])
      "quickbase_create_junction_table" (Json.obj .nil) false true).1 = [] ∧
    (handleToolCall primsEx (fun _ _ => [RemoteCall.createTable "x"])
      "quickbase_create_junction_table" (Json.obj .nil) false true).2 ≠ .executed :=
  (c7_policy_and_confirmation_gating primsEx (fun _ _ => [RemoteCall.createTable "x"])
    "quickbase_create_junction_table" (Json.obj .nil) false true).2 (by decide) (by rfl)

namespace Lemmas

mutual

/-- The visit of a value raises no issue exactly when the value respects
the depth limit at its own depth, all local limits, and the key budget
left from the running total; a clean visit adds exactly the value's keys
to the running total. -/
theorem visitValue_spec (v : Json) (d tk : Nat) (htk : tk ≤ 2000) :
    (((visitValue v d tk).1 = []) ↔
      (jsonDepthOk v d = true ∧ jsonLocalOk v = true ∧ tk + jsonTotalKeys v ≤ 2000)) ∧
    ((visitValue v d tk).1 = [] → (visitValue v d tk).2 = tk + jsonTotalKeys v) := by
  cases v with
  | null =>
    by_cases hd : d > 4
    · have h4 : ¬(d ≤ 4) := by omega
      simp [visitValue, jsonDepthOk, jsonLocalOk, jsonTotalKeys, hd, h4]
    · have h4 : d ≤ 4 := by omega
      simp [visitValue, jsonDepthOk, jsonLocalOk, jsonTotalKeys, hd, h4, htk]
  | undef =>
    by_cases hd : d > 4
    · have h4 : ¬(d ≤ 4) := by omega
      simp [visitValue, jsonDepthOk, jsonLocalOk, jsonTotalKeys, hd, h4]
    · have h4 : d ≤ 4 := by omega
      simp [visitValue, jsonDepthOk, jsonLocalOk, jsonTotalKeys, hd, h4, htk]
  | num n =>
    by_cases hd : d > 4
    · have h4 : ¬(d ≤ 4) := by omega
      simp [visitValue, jsonDepthOk, jsonLocalOk, jsonTotalKeys, hd, h4]
    · have h4 : d ≤ 4 := by omega
      simp [visitValue, jsonDepthOk, jsonLocalOk, jsonTotalKeys, hd, h4, htk]
  | bool b =>
    by_cases hd : d > 4
    · have h4 : ¬(d ≤ 4) := by omega
      simp [visitValue, jsonDepthOk, jsonLocalOk, jsonTotalKeys, hd, h4]
    · have h4 : d ≤ 4 := by omega
      simp [visitValue, jsonDepthOk, jsonLocalOk, jsonTotalKeys, hd, h4, htk]
  | str s =>
    by_cases hd : d > 4
    · have h4 : ¬(d ≤ 4) := by omega
      simp [visitValue, jsonDepthOk, jsonLocalOk, jsonTotalKeys, hd, h4]
    · have h4 : d ≤ 4 := by omega
      by_cases hs : s.length > 10000
      · have hs' : ¬(s.length ≤ 10000) := by omega
        simp [visitValue, jsonDepthOk, jsonLocalOk, jsonTotalKeys, hd, h4, hs, hs']
      · have hs' : s.length ≤ 10000 := by omega
        simp [visitValue, jsonDepthOk, jsonLocalOk, jsonTotalKeys, hd, h4, hs, hs', htk]
  | other t =>
    by_cases hd : d > 4
    · have h4 : ¬(d ≤ 4) := by omega
      simp [visitValue, jsonDepthOk, jsonLocalOk, jsonTotalKeys, hd, h4]
    · simp [visitValue, jsonDepthOk, jsonLocalOk, jsonTotalKeys, hd]
  | arr items =>
    by_cases hd : d > 4
    · have h4 : ¬(d ≤ 4) := by omega
      simp [visitValue, jsonDepthOk, jsonLocalOk, jsonTotalKeys, hd, h4]
    · have h4 : d ≤ 4 := by omega
      by_cases hl : items.length > 1000
      · have hl' : ¬(items.length ≤ 1000) := by omega
        simp [visitValue, jsonDepthOk, jsonLocalOk, jsonTotalKeys, hd, h4, hl, hl']
      · have hl' : items.length ≤ 1000 := by omega
        obtain ⟨hiff, hsnd⟩ := visitItems_spec items d tk htk
        have hv : visitValue (Json.arr items) d tk = visitItems items d tk := by
          simp [visitValue, hd, hl]
        rw [hv]
        constructor
        · rw [hiff]
          simp [jsonDepthOk, jsonLocalOk, jsonTotalKeys, h4, hl']
        · intro hcl
          rw [hsnd hcl]
          simp [jsonTotalKeys]
  | obj entries =>
    by_cases hd : d > 4
    · have h4 : ¬(d ≤ 4) := by omega
      simp [visitValue, jsonDepthOk, jsonLocalOk, jsonTotalKeys, hd, h4]
    · have h4 : d ≤ 4 := by omega
      by_cases hl : entries.length > 250
      · have hl' : ¬(entries.length ≤ 250) := by omega
        simp [visitValue, jsonDepthOk, jsonLocalOk, jsonTotalKeys, hd, h4, hl, hl']
      · have hl' : entries.length ≤ 250 := by omega
        by_cases hk : tk + entries.length > 2000
        · have hres : visitValue (Json.obj entries) d tk =
              (["Payload has too many keys overall (max 2000)."], tk + entries.length) := by
            simp [visitValue, hd, hl, hk]
          rw [hres]
          refine ⟨⟨fun hfalse => by simp at hfalse, ?_⟩, fun hfalse => by simp at hfalse⟩
          rintro ⟨-, -, hb⟩
          exfalso
          simp [jsonTotalKeys] at hb
          omega
        · obtain ⟨hiff, hsnd⟩ :=
            visitEntries_spec entries d (tk + entries.length) (by omega)
          have hv : visitValue (Json.obj entries) d tk =
              visitEntries entries d (tk + entries.length) := by
            simp [visitValue, hd, hl, hk]
          rw [hv]
          constructor
          · rw [hiff]
            simp [jsonDepthOk, jsonLocalOk, jsonTotalKeys, h4, hl', Nat.add_assoc]
          · intro hcl
            rw [hsnd hcl]
            simp [jsonTotalKeys, Nat.add_assoc]

/-- Visit of array elements: clean exactly when every element respects
depth (one deeper), local limits, and the key budget. -/
theorem visitItems_spec (items : JsonList) (d tk : Nat) (htk : tk ≤ 2000) :
    (((visitItems items d tk).1 = []) ↔
      (jsonListDepthOk items (d + 1) = true ∧ jsonListLocalOk items = true ∧
        tk + jsonListTotalKeys items ≤ 2000)) ∧
    ((visitItems items d tk).1 = [] →
      (visitItems items d tk).2 = tk + jsonListTotalKeys items) := by
  cases items with
  | nil =>
    simp [visitItems, jsonListDepthOk, jsonListLocalOk, jsonListTotalKeys, htk]
  | cons hd tl =>
    obtain ⟨hiff1, hsnd1⟩ := visitValue_spec hd (d + 1) tk htk
    by_cases hc1 : (visitValue hd (d + 1) tk).1 = []
    · obtain ⟨hd1, hl1, hb1⟩ := hiff1.mp hc1
      have hr1 := hsnd1 hc1
      have heq : visitItems (JsonList.cons hd tl) d tk =
          ((visitValue hd (d + 1) tk).1 ++ (visitItems tl d (tk + jsonTotalKeys hd)).1,
            (visitItems tl d (tk + jsonTotalKeys hd)).2) := by
        simp only [visitItems]
        rw [hr1]
      obtain ⟨hiff2, hsnd2⟩ := visitItems_spec tl d (tk + jsonTotalKeys hd) hb1
      rw [heq]
      constructor
      · rw [List.append_eq_nil]
        constructor
        · rintro ⟨h1, h2⟩
          obtain ⟨hdp, hlc, hbb⟩ := hiff2.mp h2
          refine ⟨?_, ?_, ?_⟩
          · simp [jsonListDepthOk, hd1, hdp]
          · simp [jsonListLocalOk, hl1, hlc]
          · simp only [jsonListTotalKeys]
            omega
        · rintro ⟨hdp, hlc, hbb⟩
          simp [jsonListDepthOk] at hdp
          simp [jsonListLocalOk] at hlc
          simp only [jsonListTotalKeys] at hbb
          exact ⟨hc1, hiff2.mpr ⟨hdp.2, hlc.2, by omega⟩⟩
      · intro hclean
        rw [List.append_eq_nil] at hclean
        rw [hsnd2 hclean.2]
        simp only [jsonListTotalKeys]
        omega
    · refine ⟨⟨?_, ?_⟩, ?_⟩
      · intro hclean
        exfalso
        apply hc1
        simp [visitItems, List.append_eq_nil] at hclean
        exact hclean.1
      · rintro ⟨hdp, hlc, hbb⟩
        exfalso
        apply hc1
        simp [jsonListDepthOk] at hdp
        simp [jsonListLocalOk] at hlc
        simp only [jsonListTotalKeys] at hbb
        exact hiff1.mpr ⟨hdp.1, hlc.1, by omega⟩
      · intro hclean
        exfalso
        apply hc1
        simp [visitItems, List.append_eq_nil] at hclean
        exact hclean.1

/-- Visit of object entries: clean exactly when every key is short enough
and every value respects depth (one deeper), local limits, and the key
budget. -/
theorem visitEntries_spec (entries : JsonObj) (d tk : Nat) (htk : tk ≤ 2000) :
    (((visitEntries entries d tk).1 = []) ↔
      (jsonObjDepthOk entries (d + 1) = true ∧ jsonObjLocalOk entries = true ∧
        tk + jsonObjTotalKeys entries ≤ 2000)) ∧
    ((visitEntries entries d tk).1 = [] →
      (visitEntries entries d tk).2 = tk + jsonObjTotalKeys entries) := by
  cases entries with
  | nil =>
    simp [visitEntries, jsonObjDepthOk, jsonObjLocalOk, jsonObjTotalKeys, htk]
  | cons k v tl =>
    by_cases hk : k.length > 64
    · have hk' : ¬(k.length ≤ 64) := by omega
      have hres : visitEntries (JsonObj.cons k v tl) d tk =
          (["Object key too long (max 64 chars)."], tk) := by
        simp [visitEntries, hk]
      rw [hres]
      refine ⟨⟨fun hfalse => by simp at hfalse, ?_⟩, fun hfalse => by simp at hfalse⟩
      rintro ⟨-, hlc, -⟩
      exfalso
      simp [jsonObjLocalOk, hk'] at hlc
    · have hk' : k.length ≤ 64 := by omega
      obtain ⟨hiff1, hsnd1⟩ := visitValue_spec v (d + 1) tk htk
      by_cases hc1 : (visitValue v (d + 1) tk).1 = []
      · obtain ⟨hd1, hl1, hb1⟩ := hiff1.mp hc1
        have hr1 := hsnd1 hc1
        have heq : visitEntries (JsonObj.cons k v tl) d tk =
            ((visitValue v (d + 1) tk).1 ++ (visitEntries tl d (tk + jsonTotalKeys v)).1,
              (visitEntries tl d (tk + jsonTotalKeys v)).2) := by
          simp only [visitEntries, if_neg hk]
          rw [hr1]
        obtain ⟨hiff2, hsnd2⟩ := visitEntries_spec tl d (tk + jsonTotalKeys v) hb1
        rw [heq]
        constructor
        · rw [List.append_eq_nil]
          constructor
          · rintro ⟨h1, h2⟩
            obtain ⟨hdp, hlc, hbb⟩ := hiff2.mp h2
            refine ⟨?_, ?_, ?_⟩
            · simp [jsonObjDepthOk, hd1, hdp]
            · simp [jsonObjLocalOk, hk', hl1, hlc]
            · simp only [jsonObjTotalKeys]
              omega
          · rintro ⟨hdp, hlc, hbb⟩
            simp [jsonObjDepthOk] at hdp
            simp [jsonObjLocalOk] at hlc
            simp only [jsonObjTotalKeys] at hbb
            exact ⟨hc1, hiff2.mpr ⟨hdp.2, hlc.2, by omega⟩⟩
        · intro hclean
          rw [List.append_eq_nil] at hclean
          rw [hsnd2 hclean.2]
          simp only [jsonObjTotalKeys]
          omega
      · refine ⟨⟨?_, ?_⟩, ?_⟩
        · intro hclean
          exfalso
          apply hc1
          simp [visitEntries, if_neg hk, List.append_eq_nil] at hclean
          exact hclean.1
        · rintro ⟨hdp, hlc, hbb⟩
          exfalso
          apply hc1
          simp [jsonObjDepthOk] at hdp
          simp [jsonObjLocalOk] at hlc
          simp only [jsonObjTotalKeys] at hbb
          exact hiff1.mpr ⟨hdp.1, hlc.1.2, by omega⟩
        · intro hclean
          exfalso
          apply hc1
          simp [visitEntries, if_neg hk, List.append_eq_nil] at hclean
          exact hclean.1

end

/-- The payload validator accepts exactly the payloads within all fixed
limits. -/
theorem validateFieldPayload_eq_nil_iff (payload : Json) :
    validateFieldPayload payload = [] ↔ payloadWithinLimits payload = true := by
  have h := (visitValue_spec payload 0 0 (by omega)).1
  unfold validateFieldPayload payloadWithinLimits
  rw [h]
  simp [and_assoc]

end Lemmas

/-- C8: the request shape validator raises a validation error on a field
payload if and only if the payload exceeds one of the fixed limits
(nesting depth greater than 4, more than 250 keys in one object, more than
2000 keys in total, a string longer than 10000 characters, an array longer
than 1000 items, an object key longer than 64 characters, or a value of an
unsupported runtime type); and a create-record invocation whose fields
payload exceeds the limits is refused by the argument validation before
any remote call is made. -/
theorem c8_payload_validator_iff :
    ∀ (payload : Json) (prims : ZodPrims) (exec : String → Json → List RemoteCall)
      (args : Json) (ro ad : Bool) (f : Json),
      (validateFieldPayload payload = [] ↔ payloadWithinLimits payload = true) ∧
      ((argsOrEmpty args).objLookup "fields" = some f → payloadWithinLimits f = false →
        (handleToolCall prims exec "quickbase_create_record" args ro ad).1 = [] ∧
        (handleToolCall prims exec "quickbase_create_record" args ro ad).2 ≠ .executed) := by
  intro payload prims exec args ro ad f
  refine ⟨Lemmas.validateFieldPayload_eq_nil_iff payload, ?_⟩
  intro hfield hbad
  have hrp : recordPayloadOk ((argsOrEmpty args).objLookup "fields") = false := by
    rw [hfield]
    cases f with
    | obj e =>
      have hne : ¬validateFieldPayload (Json.obj e) = [] := by
        intro hnil
        have hgood := (Lemmas.validateFieldPayload_eq_nil_iff (Json.obj e)).mp hnil
        rw [hgood] at hbad
        cases hbad
      simp only [recordPayloadOk]
      cases hl : validateFieldPayload (Json.obj e) with
      | nil => exact absurd hl hne
      | cons a as => rfl
    | null => rfl
    | undef => rfl
    | str s => rfl
    | num n => rfl
    | bool b => rfl
    | arr items => rfl
    | other t => rfl
  cases hg : assertToolAllowed "quickbase_create_record" args ro ad with
  | some msg => simp [handleToolCall, hg]
  | none =>
    simp +decide [handleToolCall, hg, parseToolArgs, CreateRecordSchemaCheck, hrp]

/-- C8 witness: a small in-limits payload is accepted, and an invocation
carrying an out-of-limits fields payload issues no remote call. -/
theorem c8_witness :
    validateFieldPayload (Json.obj (.cons "a" (Json.str "x") .nil)) = [] ∧
    (handleToolCall primsEx (fun _ _ => [RemoteCall.createTable "x"])
      "quickbase_create_record"
      (Json.obj (.cons "fields" (Json.other "function") .nil)) false true).1 = [] := by
  constructor
  · exact (c8_payload_validator_iff (Json.obj (.cons "a" (Json.str "x") .nil)) primsEx
      (fun _ _ => []) Json.null false false Json.null).1.mpr (by decide)
  · exact ((c8_payload_validator_iff Json.null primsEx
      (fun _ _ => [RemoteCall.createTable "x"])
      (Json.obj (.cons "fields" (Json.other "function") .nil)) false true
      (Json.other "function")).2 (by simp [argsOrEmpty, Json.objLookup, JsonObj.lookup])
      (by decide)).1

end QBMCP
